import Mathlib

/-!
Verification development for the two quality-gate scripts of this repository:
`scripts/check_coverage.py` (class `CoverageChecker`) and
`scripts/check_performance_regression.py` (class `PerformanceRegressionChecker`).

Modelling conventions:
* Python floats are modelled as `ℚ`; all the arithmetic the scripts perform
  (multiplication by 100, comparison with thresholds, relative change
  `(c - b) / b`) is exact on the inputs of interest.
* The coverage artifact is modelled as a tree of elements (`XMLElem`).  Only
  the attributes the script reads (`name`, `line-rate`, `branch-rate`) are
  represented; numeric attributes are stored already parsed, as `Option ℚ`
  (`none` models an absent attribute, for which the script's
  `element.get(attr, 0)` substitutes `0`).
* `ElementTree`'s `find(".//tag")` / `findall(".//tag")` search the strict
  descendants of the context element in document order; the context element
  itself is never a match.  `descList` reproduces exactly that enumeration.
* The messages the script appends to `failures` / `warnings` are Python
  f-strings; they are modelled by the inductive `Msg`, one constructor per
  f-string template, carrying the interpolated values.  Likewise the keys of
  the `details` dict (`"line_coverage"`, `"branch_coverage"`,
  `f"package_{name}"`) are modelled by the inductive `DetailKey`; the string
  keys the script actually builds are in bijection with it.
* Reading a file is modelled by passing in what the read would produce:
  `CoverageArtifact` distinguishes a missing file, an unparsable file and a
  parsed document; for the regression checker each candidate `estimates.json`
  is an `Option BenchResults` (`none` models a missing file or a JSON error,
  which `load_benchmark_results` turns into the empty dict).
-/

namespace CheckCoverage

/-- Model of Python's `str.startswith`: the prefix test on the character
sequences of the two strings. -/
def strStartsWith (s pre : String) : Bool := pre.data.isPrefixOf s.data

/-- An element of the parsed coverage document, keeping the attributes that
`check_coverage.py` reads. -/
inductive XMLElem where
  | mk (tag : String) (nameAttr : Option String) (lineRateAttr : Option ℚ)
      (branchRateAttr : Option ℚ) (children : List XMLElem)

def XMLElem.tag : XMLElem → String
  | .mk t _ _ _ _ => t

def XMLElem.nameAttr : XMLElem → Option String
  | .mk _ n _ _ _ => n

def XMLElem.lineRateAttr : XMLElem → Option ℚ
  | .mk _ _ lr _ _ => lr

def XMLElem.branchRateAttr : XMLElem → Option ℚ
  | .mk _ _ _ br _ => br

def XMLElem.children : XMLElem → List XMLElem
  | .mk _ _ _ _ cs => cs

/-- All elements of a forest together with their strict descendants, in
document order. -/
def descList : List XMLElem → List XMLElem
  | [] => []
  | XMLElem.mk t n lr br cs :: rest =>
      XMLElem.mk t n lr br cs :: (descList cs ++ descList rest)

/-- The strict descendants of an element in document order: the elements
`ElementTree`'s `.//` axis enumerates (the element itself is excluded). -/
def XMLElem.descendants (e : XMLElem) : List XMLElem := descList e.children

/-- Model of `root.find(".//t")`. -/
def findDesc (root : XMLElem) (t : String) : Option XMLElem :=
  root.descendants.find? (fun e => e.tag == t)

/-- Model of `root.findall(".//t")`. -/
def findAllDesc (root : XMLElem) (t : String) : List XMLElem :=
  root.descendants.filter (fun e => e.tag == t)

/-- What reading the coverage artifact can yield: the path does not exist,
`ET.parse` raises, or a parsed document with the given root element. -/
inductive CoverageArtifact where
  | missing
  | unparsable
  | doc (root : XMLElem)

/-- The two failure modes of `parse_coverage_report` (the script prints a
distinct message for each and returns `None`). -/
inductive ParseErr where
  | NotFound
  | MalformedInput
deriving DecidableEq

/-- One value of the `packages` dict built by `parse_coverage_report`. -/
structure PackageCov where
  line_coverage : ℚ
  branch_coverage : ℚ
deriving DecidableEq

/-- The dict returned by `parse_coverage_report`. -/
structure CoverageData where
  overall_line_coverage : ℚ
  overall_branch_coverage : ℚ
  packages : List (String × PackageCov)
  raw_line_rate : ℚ
  raw_branch_rate : ℚ
deriving DecidableEq

/-- Python dict insertion on an association list: an existing key keeps its
position and gets the new value, a new key is appended at the end. -/
def dictInsert (k : String) (v : PackageCov) :
    List (String × PackageCov) → List (String × PackageCov)
  | [] => [(k, v)]
  | (k2, v2) :: rest =>
      if k2 = k then (k, v) :: rest else (k2, v2) :: dictInsert k v rest

/-- One step of the `for package in root.findall(".//package")` loop. -/
def pkgStep (packages : List (String × PackageCov)) (p : XMLElem) :
    List (String × PackageCov) :=
  dictInsert (p.nameAttr.getD "unknown")
    ⟨(p.lineRateAttr.getD 0) * 100, (p.branchRateAttr.getD 0) * 100⟩ packages

/-- The `packages` dict collected by `parse_coverage_report`. -/
def parsePackages (root : XMLElem) : List (String × PackageCov) :=
  (findAllDesc root "package").foldl pkgStep []

/-- `CoverageChecker.parse_coverage_report`: missing file and parse failure
produce the two error messages; otherwise the script looks up
`root.find(".//coverage")` and fails if it is absent, else builds the
coverage dict, with `0` substituted for each missing rate attribute. -/
def parse_coverage_report : CoverageArtifact → Except ParseErr CoverageData
  | .missing => .error .NotFound
  | .unparsable => .error .MalformedInput
  | .doc root =>
    match findDesc root "coverage" with
    | none => .error .MalformedInput
    | some coverage_element =>
      let line_rate := coverage_element.lineRateAttr.getD 0
      let branch_rate := coverage_element.branchRateAttr.getD 0
      .ok { overall_line_coverage := line_rate * 100
            overall_branch_coverage := branch_rate * 100
            packages := parsePackages root
            raw_line_rate := line_rate
            raw_branch_rate := branch_rate }

/-- The four named thresholds of `CoverageChecker.targets`. -/
structure Targets where
  overall : ℚ
  line : ℚ
  branch : ℚ
  function : ℚ
deriving DecidableEq

/-- The constructor defaults: overall 80, line 80, branch 75, function 85. -/
def defaultTargets : Targets := ⟨80, 80, 75, 85⟩

/-- The messages `check_coverage` appends, one constructor per f-string
template, carrying the interpolated values. -/
inductive Msg where
  | lineLow (current target : ℚ)
  | lineNear (current : ℚ)
  | branchLow (current target : ℚ)
  | branchNear (current : ℚ)
  | packageLow (name : String) (current target : ℚ)
deriving DecidableEq

def Msg.isLineLow : Msg → Bool
  | .lineLow _ _ => true
  | _ => false

def Msg.isLineNear : Msg → Bool
  | .lineNear _ => true
  | _ => false

def Msg.isBranchLow : Msg → Bool
  | .branchLow _ _ => true
  | _ => false

def Msg.isBranchNear : Msg → Bool
  | .branchNear _ => true
  | _ => false

def Msg.isPackageLow : Msg → Bool
  | .packageLow _ _ _ => true
  | _ => false

/-- The keys of the `details` dict: `"line_coverage"`, `"branch_coverage"`,
and `f"package_{name}"` (the string forms are in bijection with this type). -/
inductive DetailKey where
  | line_coverage
  | branch_coverage
  | package (name : String)
deriving DecidableEq

/-- One entry of the `details` dict: `{current, target, passed}`. -/
structure CheckDetail where
  current : ℚ
  target : ℚ
  passed : Bool
deriving DecidableEq

/-- The dict returned by `check_coverage`. -/
structure CheckResults where
  passed : Bool
  failures : List Msg
  warnings : List Msg
  details : List (DetailKey × CheckDetail)
deriving DecidableEq

/-- First value stored under a key in the `details` association list. -/
def findEntry (k : DetailKey) : List (DetailKey × CheckDetail) → Option CheckDetail
  | [] => none
  | (k2, d) :: rest => if k2 = k then some d else findEntry k rest

/-- The per-package target: `targets["function"]` when the name starts with
`"ccusage_rs::"`, else `targets["line"]`. -/
def pkgTarget (t : Targets) (name : String) : ℚ :=
  if strStartsWith name "ccusage_rs::" then t.function else t.line

/-- One iteration of the `for package_name, package_data in packages` loop of
`check_coverage`: record the detail entry, and on a shortfall append a
warning (never a failure, never touching `passed`). -/
def checkPackage (t : Targets) (acc : CheckResults) (p : String × PackageCov) :
    CheckResults :=
  let package_line_coverage := p.2.line_coverage
  let target_coverage := pkgTarget t p.1
  let acc2 := { acc with
    details := acc.details ++
      [(DetailKey.package p.1,
        ⟨package_line_coverage, target_coverage,
         decide (package_line_coverage ≥ target_coverage)⟩)] }
  if package_line_coverage < target_coverage then
    { acc2 with warnings := acc2.warnings ++
        [Msg.packageLow p.1 package_line_coverage target_coverage] }
  else acc2

/-- `CoverageChecker.check_coverage`: the overall line check, the overall
branch check (each: failure below target, warning within 5 points above it),
then the per-package loop. -/
def check_coverage (t : Targets) (coverage_data : CoverageData) : CheckResults :=
  let line_coverage := coverage_data.overall_line_coverage
  let r1 : CheckResults :=
    { passed := true, failures := [], warnings := [],
      details := [(DetailKey.line_coverage,
        ⟨line_coverage, t.line, decide (line_coverage ≥ t.line)⟩)] }
  let r2 :=
    if line_coverage < t.line then
      { r1 with passed := false,
                failures := r1.failures ++ [Msg.lineLow line_coverage t.line] }
    else if line_coverage < t.line + 5 then
      { r1 with warnings := r1.warnings ++ [Msg.lineNear line_coverage] }
    else r1
  let branch_coverage := coverage_data.overall_branch_coverage
  let r3 := { r2 with details := r2.details ++
    [(DetailKey.branch_coverage,
      ⟨branch_coverage, t.branch, decide (branch_coverage ≥ t.branch)⟩)] }
  let r4 :=
    if branch_coverage < t.branch then
      { r3 with passed := false,
                failures := r3.failures ++ [Msg.branchLow branch_coverage t.branch] }
    else if branch_coverage < t.branch + 5 then
      { r3 with warnings := r3.warnings ++ [Msg.branchNear branch_coverage] }
    else r3
  coverage_data.packages.foldl (checkPackage t) r4

/-- The exit code of `main`: 1 when `parse_coverage_report` fails, else 0
exactly when `check_results["passed"]`. -/
def coverage_main_exit (t : Targets) (a : CoverageArtifact) : Nat :=
  match parse_coverage_report a with
  | .error _ => 1
  | .ok coverage_data => if (check_coverage t coverage_data).passed then 0 else 1

/-- The details entry `checkPackage` records for one package. -/
def pkgEntry (t : Targets) (p : String × PackageCov) : DetailKey × CheckDetail :=
  (DetailKey.package p.1,
   ⟨p.2.line_coverage, pkgTarget t p.1, decide (p.2.line_coverage ≥ pkgTarget t p.1)⟩)

/-- The warning `checkPackage` appends for one package, when any. -/
def pkgWarn (t : Targets) (p : String × PackageCov) : Option Msg :=
  if p.2.line_coverage < pkgTarget t p.1 then
    some (Msg.packageLow p.1 p.2.line_coverage (pkgTarget t p.1))
  else none

/-- Number of messages of a list satisfying a predicate. -/
def countMsgs (q : Msg → Bool) (l : List Msg) : Nat := (l.filter q).length

/-- A document whose root element is itself the `coverage` aggregate node
(the layout of a real cobertura file), with both rate attributes present and
no nested `coverage` element. -/
def cobertura_root : XMLElem :=
  .mk "coverage" none (some (83 / 100)) (some (78 / 100)) []

/-- An artifact realising scenario B (overall line-rate 0.83, branch-rate
0.78, no modules), with the aggregate node placed as a descendant so that
`root.find(".//coverage")` can see it. -/
def rootB : XMLElem :=
  .mk "root" none none none [.mk "coverage" none (some (83 / 100)) (some (78 / 100)) []]

def artB : CoverageArtifact := .doc rootB

/-- The parse of `artB`. -/
def covB : CoverageData := ⟨83, 78, [], 83 / 100, 78 / 100⟩

/-- A report with comfortable overall coverage and two modules below their
targets, one with the core-module name prefix and one without. -/
def covW : CoverageData :=
  ⟨90, 90, [("ccusage_rs::core", ⟨50, 40⟩), ("serde", ⟨70, 60⟩)], 9 / 10, 9 / 10⟩

/-- A report with overall line coverage inside the warning band of the
default line target and branch coverage above its band. -/
def covW5 : CoverageData := ⟨83, 90, [], 83 / 100, 9 / 10⟩

/-- An aggregate node carrying a `line-rate` attribute but no `branch-rate`
attribute, whose one package carries a `branch-rate` attribute but no
`line-rate` attribute. -/
def covElemW10 : XMLElem :=
  .mk "coverage" none (some (9 / 10)) none
    [.mk "package" (some "p") none (some (1 / 2)) []]

/-- A document with one rate attribute missing at the aggregate node and the
other missing at its package node. -/
def rootW10 : XMLElem := .mk "root" none none none [covElemW10]

end CheckCoverage

namespace CheckPerf

/-- A parsed `estimates.json`, keeping what `compare_benchmarks` reads: the
`point_estimate` under `"Mean"` and under `"memory"` when those keys are
present (per the artifact format every present key carries a
`point_estimate`), plus whether the object has any further keys (which make
the dict non-empty, i.e. truthy, without enabling any comparison). -/
structure BenchResults where
  Mean : Option ℚ
  memory : Option ℚ
  otherKeys : Bool
deriving DecidableEq

/-- Python truthiness of the results dict: `not results` holds exactly when
it has no keys at all. -/
def BenchResults.isEmpty (r : BenchResults) : Bool :=
  r.Mean.isNone && r.memory.isNone && !r.otherKeys

/-- The empty dict `{}` that `load_benchmark_results` returns for a missing
directory, a missing `estimates.json`, or a JSON/IO error. -/
def emptyResults : BenchResults := ⟨none, none, false⟩

/-- `load_benchmark_results`: the argument is what reading
`<dir>/new/estimates.json` would yield (`none` for any of the missing-file or
error cases), and the result is that content or the empty dict. -/
def load_benchmark_results (o : Option BenchResults) : BenchResults :=
  o.getD emptyResults

/-- `PerformanceRegressionChecker.thresholds`. -/
structure RegThresholds where
  time : ℚ
  memory : ℚ
deriving DecidableEq

/-- The constructor defaults: time 0.10, memory 0.15. -/
def defaultThresholds : RegThresholds := ⟨10 / 100, 15 / 100⟩

/-- One entry of `comparison["details"]`. -/
structure MetricDetails where
  baseline : ℚ
  current : ℚ
  change_percent : ℚ
  threshold : ℚ
deriving DecidableEq

/-- The dict returned by `compare_benchmarks`. -/
structure Comparison where
  time_regression : Bool
  memory_regression : Bool
  time_change : ℚ
  memory_change : ℚ
  details : List (String × MetricDetails)
deriving DecidableEq

/-- First value stored under a key in the `details` dict of a comparison. -/
def lookupMetric (k : String) : List (String × MetricDetails) → Option MetricDetails
  | [] => none
  | (k2, d) :: rest => if k2 = k then some d else lookupMetric k rest

/-- `PerformanceRegressionChecker.compare_benchmarks`: for each metric, only
when both dicts carry the key and the baseline value is strictly positive
does the script fill in the change, the regression flag (strict `>` against
the threshold) and the details entry; otherwise the zero-initialised fields
are left untouched. -/
def compare_benchmarks (th : RegThresholds) (baseline_results current_results : BenchResults) :
    Comparison :=
  let c0 : Comparison := ⟨false, false, 0, 0, []⟩
  let c1 :=
    match baseline_results.Mean, current_results.Mean with
    | some baseline_time, some current_time =>
      if baseline_time > 0 then
        let time_change := (current_time - baseline_time) / baseline_time
        { c0 with
          time_change := time_change,
          time_regression := decide (time_change > th.time),
          details := c0.details ++
            [("time", ⟨baseline_time, current_time, time_change * 100, th.time * 100⟩)] }
      else c0
    | _, _ => c0
  match baseline_results.memory, current_results.memory with
  | some baseline_memory, some current_memory =>
    if baseline_memory > 0 then
      let memory_change := (current_memory - baseline_memory) / baseline_memory
      { c1 with
        memory_change := memory_change,
        memory_regression := decide (memory_change > th.memory),
        details := c1.details ++
          [("memory", ⟨baseline_memory, current_memory, memory_change * 100, th.memory * 100⟩)] }
    else c1
  | _, _ => c1

/-- One entry of the criterion directory: its name, whether it is a
directory, and what reading `<name>/new/estimates.json` (current run) and
`<name>/base/new/estimates.json` (baseline snapshot) would yield; `none`
models a missing file or unreadable JSON. -/
structure BenchDir where
  name : String
  isDir : Bool
  current : Option BenchResults
  baseline : Option BenchResults
deriving DecidableEq

/-- The criterion directory: the entries `iterdir()` yields, in order. -/
structure CriterionDir where
  entries : List BenchDir
deriving DecidableEq

/-- One iteration of the `for benchmark_dir in benchmark_dirs` loop of
`check_regressions`, with its two silent `continue`s and the final
regression-flag filter. -/
def regStep (th : RegThresholds) (regressions : List (String × Comparison))
    (d : BenchDir) : List (String × Comparison) :=
  let baseline_results := load_benchmark_results d.baseline
  if baseline_results.isEmpty then regressions
  else
    let current_results := load_benchmark_results d.current
    if current_results.isEmpty then regressions
    else
      let comparison := compare_benchmarks th baseline_results current_results
      if comparison.time_regression || comparison.memory_regression then
        regressions ++ [(d.name, comparison)]
      else regressions

/-- `PerformanceRegressionChecker.check_regressions`: scan every directory
entry except the reserved `"base"` one, and accumulate the benchmarks whose
comparison carries at least one regression flag. -/
def check_regressions (th : RegThresholds) (dir : CriterionDir) :
    List (String × Comparison) :=
  let benchmark_dirs := dir.entries.filter (fun d => d.isDir && !(d.name == "base"))
  benchmark_dirs.foldl (regStep th) []

/-- The exit code of `main`: 0 exactly when no regressions were found. -/
def perf_main_exit (th : RegThresholds) (dir : CriterionDir) : Nat :=
  if (check_regressions th dir).length == 0 then 0 else 1

/-- The relative change `compare_benchmarks` computes for one metric, when
it computes one. -/
def metricChange : Option ℚ → Option ℚ → Option ℚ
  | some bv, some cv => if bv > 0 then some ((cv - bv) / bv) else none
  | _, _ => none

/-- The details entry `compare_benchmarks` records for one metric. -/
def metricEntry (key : String) (thv : ℚ) :
    Option ℚ → Option ℚ → List (String × MetricDetails)
  | some bv, some cv =>
      if bv > 0 then [(key, ⟨bv, cv, (cv - bv) / bv * 100, thv * 100⟩)] else []
  | _, _ => []

/-- What one loop iteration of `check_regressions` contributes to the
regression list. -/
def regEntry (th : RegThresholds) (d : BenchDir) : Option (String × Comparison) :=
  let baseline_results := load_benchmark_results d.baseline
  if baseline_results.isEmpty then none
  else
    let current_results := load_benchmark_results d.current
    if current_results.isEmpty then none
    else
      let comparison := compare_benchmarks th baseline_results current_results
      if comparison.time_regression || comparison.memory_regression then
        some (d.name, comparison)
      else none

/-- Baseline estimates of scenario C: time point-estimate 100. -/
def brFoo : BenchResults := ⟨some 100, none, false⟩

/-- Current estimates of scenario C: time point-estimate 115. -/
def crFoo : BenchResults := ⟨some 115, none, false⟩

/-- A criterion directory holding the reserved `base` entry and one
benchmark `foo` whose time grew from 100 to 115. -/
def dirFoo : CriterionDir := ⟨[⟨"base", true, none, none⟩, ⟨"foo", true, some crFoo, some brFoo⟩]⟩

/-- The comparison of `foo` under the default thresholds. -/
def cmpFoo : Comparison := compare_benchmarks defaultThresholds brFoo crFoo

/-- Estimates with no time point-estimate but a memory one. -/
def brOnlyMem : BenchResults := ⟨none, some 10, false⟩

end CheckPerf

namespace CheckCoverage

theorem checkPackage_eq (t : Targets) (acc : CheckResults) (p : String × PackageCov) :
    checkPackage t acc p =
      { acc with details := acc.details ++ [pkgEntry t p],
                 warnings := acc.warnings ++ (pkgWarn t p).toList } := by
  simp only [checkPackage, pkgEntry, pkgWarn]
  split_ifs <;> simp

theorem foldl_checkPackage (t : Targets) (ps : List (String × PackageCov)) (r : CheckResults) :
    ps.foldl (checkPackage t) r =
      { r with warnings := r.warnings ++ ps.filterMap (pkgWarn t),
               details := r.details ++ ps.map (pkgEntry t) } := by
  induction ps generalizing r with
  | nil => simp
  | cons p ps ih =>
      rw [List.foldl_cons, ih, checkPackage_eq]
      cases h : pkgWarn t p <;>
        simp [h, List.filterMap_cons, List.append_assoc]

theorem check_coverage_closed (t : Targets) (cov : CoverageData) :
    check_coverage t cov =
      { passed := !decide (cov.overall_line_coverage < t.line) &&
                  !decide (cov.overall_branch_coverage < t.branch),
        failures :=
          (if cov.overall_line_coverage < t.line then
             [Msg.lineLow cov.overall_line_coverage t.line] else []) ++
          (if cov.overall_branch_coverage < t.branch then
             [Msg.branchLow cov.overall_branch_coverage t.branch] else []),
        warnings :=
          ((if cov.overall_line_coverage < t.line then []
            else if cov.overall_line_coverage < t.line + 5 then
              [Msg.lineNear cov.overall_line_coverage] else []) ++
           (if cov.overall_branch_coverage < t.branch then []
            else if cov.overall_branch_coverage < t.branch + 5 then
              [Msg.branchNear cov.overall_branch_coverage] else [])) ++
          cov.packages.filterMap (pkgWarn t),
        details :=
          ([(DetailKey.line_coverage,
             ⟨cov.overall_line_coverage, t.line,
              decide (cov.overall_line_coverage ≥ t.line)⟩),
            (DetailKey.branch_coverage,
             ⟨cov.overall_branch_coverage, t.branch,
              decide (cov.overall_branch_coverage ≥ t.branch)⟩)] :
            List (DetailKey × CheckDetail)) ++
          cov.packages.map (pkgEntry t) } := by
  simp only [check_coverage]
  rw [foldl_checkPackage]
  split_ifs <;> simp_all

end CheckCoverage

namespace CheckCoverage

theorem not_decide_lt (a b : ℚ) : (!decide (a < b)) = decide (b ≤ a) := by
  by_cases h : a < b
  · simp [h, not_le_of_lt h]
  · simp [h, not_lt.mp h]

theorem countMsgs_append (q : Msg → Bool) (a b : List Msg) :
    countMsgs q (a ++ b) = countMsgs q a + countMsgs q b := by
  simp [countMsgs, List.filter_append]

theorem countMsgs_pkgWarns (t : Targets) (ps : List (String × PackageCov)) (q : Msg → Bool)
    (hq : ∀ n c g, q (Msg.packageLow n c g) = false) :
    countMsgs q (ps.filterMap (pkgWarn t)) = 0 := by
  induction ps with
  | nil => rfl
  | cons p ps ih =>
      rw [List.filterMap_cons]
      simp only [pkgWarn]
      split_ifs with h
      · simpa [countMsgs, List.filter_cons, hq] using ih
      · exact ih

theorem pkgWarns_lineNear (t : Targets) (ps : List (String × PackageCov)) :
    countMsgs Msg.isLineNear (ps.filterMap (pkgWarn t)) = 0 :=
  countMsgs_pkgWarns t ps _ (fun _ _ _ => rfl)

theorem pkgWarns_lineLow (t : Targets) (ps : List (String × PackageCov)) :
    countMsgs Msg.isLineLow (ps.filterMap (pkgWarn t)) = 0 :=
  countMsgs_pkgWarns t ps _ (fun _ _ _ => rfl)

theorem pkgWarns_branchNear (t : Targets) (ps : List (String × PackageCov)) :
    countMsgs Msg.isBranchNear (ps.filterMap (pkgWarn t)) = 0 :=
  countMsgs_pkgWarns t ps _ (fun _ _ _ => rfl)

theorem pkgWarns_branchLow (t : Targets) (ps : List (String × PackageCov)) :
    countMsgs Msg.isBranchLow (ps.filterMap (pkgWarn t)) = 0 :=
  countMsgs_pkgWarns t ps _ (fun _ _ _ => rfl)

/-- Claim C2: `check_coverage` sets `passed` to true exactly when overall
line coverage meets the line target and overall branch coverage meets the
branch target; a package shortfall never contributes a failure message
(so it never flips `passed`), it only appends a warning. -/
theorem C2_overall_checks_gate (t : Targets) (cov : CoverageData) :
    ((check_coverage t cov).passed =
      (decide (t.line ≤ cov.overall_line_coverage) &&
       decide (t.branch ≤ cov.overall_branch_coverage))) ∧
    (check_coverage t cov).failures.filter Msg.isPackageLow = [] ∧
    (∀ name pd, (name, pd) ∈ cov.packages →
      pd.line_coverage < pkgTarget t name →
      Msg.packageLow name pd.line_coverage (pkgTarget t name) ∈
        (check_coverage t cov).warnings) := by
  rw [check_coverage_closed]
  refine ⟨?_, ?_, ?_⟩
  · rw [not_decide_lt, not_decide_lt]
  · split_ifs <;> simp [Msg.isPackageLow]
  · intro name pd hmem hlt
    refine List.mem_append.mpr (Or.inr ?_)
    refine List.mem_filterMap.mpr ⟨(name, pd), hmem, ?_⟩
    simp [pkgWarn, hlt]

/-- Witness for C2: in `covW` the core package `ccusage_rs::core` is below
its (function) target 85 and yields the corresponding warning. -/
theorem C2_overall_checks_gate_witness :
    Msg.packageLow "ccusage_rs::core" 50 85 ∈
      (check_coverage defaultTargets covW).warnings := by
  have hpre : strStartsWith "ccusage_rs::core" "ccusage_rs::" = true := by decide
  have htgt : pkgTarget defaultTargets "ccusage_rs::core" = 85 := by
    simp [pkgTarget, hpre, defaultTargets]
  have hmem : ("ccusage_rs::core", (⟨50, 40⟩ : PackageCov)) ∈ covW.packages := by
    simp [covW]
  have h := (C2_overall_checks_gate defaultTargets covW).2.2 "ccusage_rs::core" ⟨50, 40⟩
    hmem (by rw [htgt]; norm_num)
  rw [htgt] at h
  exact h

/-- Claim C5: for each overall check, a value in `[T, T + 5)` yields exactly
one proximity warning, no failure, and a passing details entry; a value at
or above `T + 5` yields neither a warning nor a failure for that check. -/
theorem C5_warning_band (t : Targets) (cov : CoverageData) :
    (t.line ≤ cov.overall_line_coverage → cov.overall_line_coverage < t.line + 5 →
      countMsgs Msg.isLineNear (check_coverage t cov).warnings = 1 ∧
      countMsgs Msg.isLineLow (check_coverage t cov).failures = 0 ∧
      findEntry DetailKey.line_coverage (check_coverage t cov).details =
        some ⟨cov.overall_line_coverage, t.line, true⟩) ∧
    (t.line + 5 ≤ cov.overall_line_coverage →
      countMsgs Msg.isLineNear (check_coverage t cov).warnings = 0 ∧
      countMsgs Msg.isLineLow (check_coverage t cov).failures = 0) ∧
    (t.branch ≤ cov.overall_branch_coverage → cov.overall_branch_coverage < t.branch + 5 →
      countMsgs Msg.isBranchNear (check_coverage t cov).warnings = 1 ∧
      countMsgs Msg.isBranchLow (check_coverage t cov).failures = 0 ∧
      findEntry DetailKey.branch_coverage (check_coverage t cov).details =
        some ⟨cov.overall_branch_coverage, t.branch, true⟩) ∧
    (t.branch + 5 ≤ cov.overall_branch_coverage →
      countMsgs Msg.isBranchNear (check_coverage t cov).warnings = 0 ∧
      countMsgs Msg.isBranchLow (check_coverage t cov).failures = 0) := by
  rw [check_coverage_closed]
  refine ⟨fun h1 h2 => ⟨?_, ?_, ?_⟩, fun h1 => ⟨?_, ?_⟩,
          fun h1 h2 => ⟨?_, ?_, ?_⟩, fun h1 => ⟨?_, ?_⟩⟩ <;>
    simp only [countMsgs_append, pkgWarns_lineNear, pkgWarns_lineLow,
      pkgWarns_branchNear, pkgWarns_branchLow, findEntry] <;>
    split_ifs <;>
    first
      | contradiction
      | (exfalso; linarith)
      | simp [countMsgs, Msg.isLineNear, Msg.isLineLow, Msg.isBranchNear,
          Msg.isBranchLow, ge_iff_le, h1]

end CheckCoverage

namespace CheckCoverage

/-- Witness for C5: with the default targets and report `covW5`, line
coverage 83 lies in the band `[80, 85)` and yields exactly one proximity
warning, no failure, and a passing line detail. -/
theorem C5_warning_band_witness :
    countMsgs Msg.isLineNear (check_coverage defaultTargets covW5).warnings = 1 ∧
    countMsgs Msg.isLineLow (check_coverage defaultTargets covW5).failures = 0 ∧
    findEntry DetailKey.line_coverage (check_coverage defaultTargets covW5).details =
      some ⟨83, 80, true⟩ :=
  (C5_warning_band defaultTargets covW5).1 (by norm_num [defaultTargets, covW5])
    (by norm_num [defaultTargets, covW5])

/-- Claim C6: the details entry `check_coverage` records for a module uses
the `function` target exactly when the module name starts with the core
prefix `ccusage_rs::`, and the `line` target otherwise; conversely every
per-module details entry arose from a module of the report and carries the
target selected by that rule. -/
theorem C6_core_module_target (t : Targets) (cov : CoverageData) :
    (∀ name pd, (name, pd) ∈ cov.packages →
      (DetailKey.package name,
        (⟨pd.line_coverage,
          if strStartsWith name "ccusage_rs::" then t.function else t.line,
          decide (pd.line_coverage ≥
            (if strStartsWith name "ccusage_rs::" then t.function else t.line))⟩ :
          CheckDetail)) ∈ (check_coverage t cov).details) ∧
    (∀ name d, (DetailKey.package name, d) ∈ (check_coverage t cov).details →
      ∃ pd, (name, pd) ∈ cov.packages ∧ d.current = pd.line_coverage ∧
        d.target = (if strStartsWith name "ccusage_rs::" then t.function else t.line)) := by
  rw [check_coverage_closed]
  constructor
  · intro name pd hmem
    refine List.mem_append.mpr (Or.inr ?_)
    refine List.mem_map.mpr ⟨(name, pd), hmem, ?_⟩
    simp [pkgEntry, pkgTarget]
  · intro name d hmem
    rcases List.mem_append.mp hmem with h | h
    · simp at h
    · obtain ⟨p, hp, he⟩ := List.mem_map.mp h
      simp only [pkgEntry, Prod.mk.injEq, DetailKey.package.injEq] at he
      obtain ⟨h1, h2⟩ := he
      subst h1
      exact ⟨p.2, hp, by rw [← h2], by rw [← h2]; rfl⟩

/-- Witness for C6: in `covW` the core module gets the function target 85
(not the line target 80) and its shortfall detail is recorded as failing. -/
theorem C6_core_module_target_witness :
    (DetailKey.package "ccusage_rs::core", (⟨50, 85, false⟩ : CheckDetail)) ∈
      (check_coverage defaultTargets covW).details := by
  have hpre : strStartsWith "ccusage_rs::core" "ccusage_rs::" = true := by decide
  have h := (C6_core_module_target defaultTargets covW).1 "ccusage_rs::core" ⟨50, 40⟩
    (by simp [covW])
  simpa [hpre, defaultTargets, show ¬((50 : ℚ) ≥ 85) by norm_num] using h

/-- Claim C9: the `overall` target is never read by `check_coverage`; two
evaluations differing only in it produce identical results. -/
theorem C9_overall_target_unused (t : Targets) (o o2 : ℚ) (cov : CoverageData) :
    check_coverage { t with overall := o } cov =
      check_coverage { t with overall := o2 } cov := rfl

end CheckCoverage

namespace CheckCoverage

theorem parse_artB : parse_coverage_report artB = .ok covB := by
  simp [parse_coverage_report, artB, rootB, findDesc, XMLElem.descendants,
    XMLElem.children, descList, List.find?, XMLElem.tag, parsePackages, findAllDesc,
    List.filter, pkgStep, XMLElem.lineRateAttr, XMLElem.branchRateAttr, covB]

theorem check_covB :
    check_coverage defaultTargets covB =
      { passed := true, failures := [],
        warnings := [Msg.lineNear 83, Msg.branchNear 78],
        details :=
          [(DetailKey.line_coverage, ⟨83, 80, true⟩),
           (DetailKey.branch_coverage, ⟨78, 75, true⟩)] } := by
  rw [check_coverage_closed]
  norm_num [defaultTargets, covB]

/-- Counterexample for claim C8: on scenario B (overall line-rate 0.83,
branch-rate 0.78, no modules, default thresholds) the result does not
contain exactly one warning — branch coverage 78 also lies within 5 points
of its target 75, so a second proximity warning is appended. -/
theorem C8_scenarioB_counterexample :
    parse_coverage_report artB = .ok covB ∧
    (check_coverage defaultTargets covB).warnings.length ≠ 1 := by
  refine ⟨parse_artB, ?_⟩
  rw [check_covB]
  simp

/-- Amended claim C8: scenario B exits with code 0 and produces no failures
and exactly two warnings, one per overall check, both about proximity to the
respective threshold. -/
theorem C8_scenarioB_amended :
    parse_coverage_report artB = .ok covB ∧
    coverage_main_exit defaultTargets artB = 0 ∧
    (check_coverage defaultTargets covB).failures = [] ∧
    (check_coverage defaultTargets covB).warnings =
      [Msg.lineNear 83, Msg.branchNear 78] := by
  refine ⟨parse_artB, ?_, ?_, ?_⟩
  · simp [coverage_main_exit, parse_artB, check_covB]
  · rw [check_covB]
  · rw [check_covB]

/-- Claim C1 (code behaviour at the failing input): a well-formed document
whose top-level aggregate element is the root `coverage` node itself — the
layout of a real cobertura artifact, rate attributes present — is rejected,
because `root.find(".//coverage")` only searches strict descendants; the
claim expects this load to succeed. -/
theorem C1_root_aggregate_rejected :
    parse_coverage_report (.doc cobertura_root) = .error .MalformedInput := by
  simp [parse_coverage_report, cobertura_root, findDesc, XMLElem.descendants,
    XMLElem.children, descList]

theorem mem_dictInsert (k : String) (v : PackageCov) (l : List (String × PackageCov))
    (e : String × PackageCov) (he : e ∈ dictInsert k v l) : e = (k, v) ∨ e ∈ l := by
  induction l with
  | nil => simpa [dictInsert] using he
  | cons kv rest ih =>
      obtain ⟨k2, v2⟩ := kv
      simp only [dictInsert] at he
      split_ifs at he with h
      · rcases List.mem_cons.mp he with he | he
        · exact Or.inl he
        · exact Or.inr (List.mem_cons_of_mem _ he)
      · rcases List.mem_cons.mp he with he | he
        · exact Or.inr (by simp [he])
        · rcases ih he with h1 | h1
          · exact Or.inl h1
          · exact Or.inr (List.mem_cons_of_mem _ h1)

theorem foldl_pkgStep_origin (l : List XMLElem) :
    ∀ (acc : List (String × PackageCov)) (e : String × PackageCov),
      e ∈ l.foldl pkgStep acc →
      e ∈ acc ∨ ∃ p ∈ l, e = (p.nameAttr.getD "unknown",
        ⟨(p.lineRateAttr.getD 0) * 100, (p.branchRateAttr.getD 0) * 100⟩) := by
  induction l with
  | nil =>
      intro acc e he
      exact Or.inl (by simpa using he)
  | cons p rest ih =>
      intro acc e he
      rw [List.foldl_cons] at he
      rcases ih (pkgStep acc p) e he with h | h
      · simp only [pkgStep] at h
        rcases mem_dictInsert _ _ _ _ h with h2 | h2
        · exact Or.inr ⟨p, List.mem_cons_self _ _, h2⟩
        · exact Or.inl h2
      · obtain ⟨q, hq, he2⟩ := h
        exact Or.inr ⟨q, List.mem_cons_of_mem _ hq, he2⟩

/-- Claim C10: once the aggregate element is found, the parse never rejects
a document over missing rate attributes: it succeeds unconditionally, each
rate attribute missing from the aggregate node independently yields a 0.0
overall value for that rate, and every package entry is built from a package
node with 0 substituted for each of its missing rate attributes (present
attributes keep their parsed values). -/
theorem C10_missing_attrs_zero (root c : XMLElem)
    (h : findDesc root "coverage" = some c) :
    ∃ data, parse_coverage_report (.doc root) = .ok data ∧
      (c.lineRateAttr = none → data.overall_line_coverage = 0) ∧
      (c.branchRateAttr = none → data.overall_branch_coverage = 0) ∧
      ∀ e ∈ data.packages, ∃ p ∈ findAllDesc root "package",
        e.1 = p.nameAttr.getD "unknown" ∧
        e.2 = ⟨(p.lineRateAttr.getD 0) * 100, (p.branchRateAttr.getD 0) * 100⟩ ∧
        (p.lineRateAttr = none → e.2.line_coverage = 0) ∧
        (p.branchRateAttr = none → e.2.branch_coverage = 0) := by
  have hparse : parse_coverage_report (.doc root) = .ok
      { overall_line_coverage := (c.lineRateAttr.getD 0) * 100,
        overall_branch_coverage := (c.branchRateAttr.getD 0) * 100,
        packages := parsePackages root,
        raw_line_rate := c.lineRateAttr.getD 0,
        raw_branch_rate := c.branchRateAttr.getD 0 } := by
    simp only [parse_coverage_report, h]
  refine ⟨_, hparse, fun h0 => by simp [h0], fun h0 => by simp [h0], ?_⟩
  intro e he
  rcases foldl_pkgStep_origin (findAllDesc root "package") [] e
      (by simpa [parsePackages] using he) with h0 | ⟨p, hpmem, he2⟩
  · simp at h0
  · subst he2
    refine ⟨p, hpmem, rfl, rfl, fun hl0 => ?_, fun hb0 => ?_⟩
    · simp [hl0]
    · simp [hb0]

/-- Witness for C10 at the concrete document `rootW10`, whose aggregate node
lacks only `branch-rate` and whose package lacks only `line-rate`. -/
theorem C10_missing_attrs_zero_witness :
    ∃ data, parse_coverage_report (.doc rootW10) = .ok data ∧
      (covElemW10.lineRateAttr = none → data.overall_line_coverage = 0) ∧
      (covElemW10.branchRateAttr = none → data.overall_branch_coverage = 0) ∧
      ∀ e ∈ data.packages, ∃ p ∈ findAllDesc rootW10 "package",
        e.1 = p.nameAttr.getD "unknown" ∧
        e.2 = ⟨(p.lineRateAttr.getD 0) * 100, (p.branchRateAttr.getD 0) * 100⟩ ∧
        (p.lineRateAttr = none → e.2.line_coverage = 0) ∧
        (p.branchRateAttr = none → e.2.branch_coverage = 0) :=
  C10_missing_attrs_zero rootW10 covElemW10 (by
    simp [findDesc, rootW10, covElemW10, XMLElem.descendants, XMLElem.children,
      descList, List.find?, XMLElem.tag])

end CheckCoverage

namespace CheckPerf

theorem compare_benchmarks_closed (th : RegThresholds) (br cr : BenchResults) :
    compare_benchmarks th br cr =
      { time_regression :=
          (metricChange br.Mean cr.Mean).elim false (fun ch => decide (ch > th.time)),
        memory_regression :=
          (metricChange br.memory cr.memory).elim false (fun ch => decide (ch > th.memory)),
        time_change := (metricChange br.Mean cr.Mean).getD 0,
        memory_change := (metricChange br.memory cr.memory).getD 0,
        details := metricEntry "time" th.time br.Mean cr.Mean ++
                   metricEntry "memory" th.memory br.memory cr.memory } := by
  rcases hbm : br.Mean with _ | bv <;> rcases hcm : cr.Mean with _ | cv <;>
    rcases hbM : br.memory with _ | bm <;> rcases hcM : cr.memory with _ | cm <;>
    simp only [compare_benchmarks, metricChange, metricEntry, hbm, hcm, hbM, hcM] <;>
    (try split_ifs) <;> simp [Option.elim]

/-- Claim C3: when both estimates carry the metric key and the baseline
value is strictly positive, the change is `(c - b) / b` and the regression
flag holds exactly when the change strictly exceeds the threshold; under the
default thresholds a current value at or below the baseline never raises a
flag. -/
theorem C3_regression_iff_threshold (th : RegThresholds) (br cr : BenchResults) :
    (∀ b c, br.Mean = some b → cr.Mean = some c → 0 < b →
      (compare_benchmarks th br cr).time_change = (c - b) / b ∧
      ((compare_benchmarks th br cr).time_regression = true ↔
        th.time < (c - b) / b)) ∧
    (∀ b c, br.memory = some b → cr.memory = some c → 0 < b →
      (compare_benchmarks th br cr).memory_change = (c - b) / b ∧
      ((compare_benchmarks th br cr).memory_regression = true ↔
        th.memory < (c - b) / b)) ∧
    (∀ b c, br.Mean = some b → cr.Mean = some c → 0 < b → c ≤ b →
      (compare_benchmarks defaultThresholds br cr).time_regression = false) ∧
    (∀ b c, br.memory = some b → cr.memory = some c → 0 < b → c ≤ b →
      (compare_benchmarks defaultThresholds br cr).memory_regression = false) := by
  refine ⟨?_, ?_, ?_, ?_⟩ <;> intro b c hb hc hpos
  · rw [compare_benchmarks_closed]
    simp [metricChange, hb, hc, hpos]
  · rw [compare_benchmarks_closed]
    simp [metricChange, hb, hc, hpos]
  · intro hle
    rw [compare_benchmarks_closed]
    simp only [metricChange, hb, hc, if_pos hpos, Option.elim]
    have h0 : (c - b) / b ≤ 0 := by
      rw [div_le_iff₀ hpos]
      linarith
    simp only [defaultThresholds, gt_iff_lt, decide_eq_false_iff_not, not_lt]
    linarith
  · intro hle
    rw [compare_benchmarks_closed]
    simp only [metricChange, hb, hc, if_pos hpos, Option.elim]
    have h0 : (c - b) / b ≤ 0 := by
      rw [div_le_iff₀ hpos]
      linarith
    simp only [defaultThresholds, gt_iff_lt, decide_eq_false_iff_not, not_lt]
    linarith

/-- Witness for C3: scenario C, baseline time 100 and current time 115
under the default thresholds. -/
theorem C3_regression_iff_threshold_witness :
    (compare_benchmarks defaultThresholds brFoo crFoo).time_change = (115 - 100) / 100 ∧
    ((compare_benchmarks defaultThresholds brFoo crFoo).time_regression = true ↔
      defaultThresholds.time < (115 - 100) / 100) :=
  (C3_regression_iff_threshold defaultThresholds brFoo crFoo).1 100 115 rfl rfl
    (by norm_num)

/-- Claim C7: when a metric key is missing from either estimate, or the
baseline value is not strictly positive, that metric keeps change 0.0, a
false regression flag, and no details entry. -/
theorem C7_no_comparison_is_silent (th : RegThresholds) (br cr : BenchResults) :
    ((∀ b c, br.Mean = some b → cr.Mean = some c → b ≤ 0) →
      (compare_benchmarks th br cr).time_change = 0 ∧
      (compare_benchmarks th br cr).time_regression = false ∧
      lookupMetric "time" (compare_benchmarks th br cr).details = none) ∧
    ((∀ b c, br.memory = some b → cr.memory = some c → b ≤ 0) →
      (compare_benchmarks th br cr).memory_change = 0 ∧
      (compare_benchmarks th br cr).memory_regression = false ∧
      lookupMetric "memory" (compare_benchmarks th br cr).details = none) := by
  rw [compare_benchmarks_closed]
  constructor
  · intro hno
    have hmc : metricChange br.Mean cr.Mean = none := by
      rcases hb : br.Mean with _ | b <;> rcases hc : cr.Mean with _ | c <;>
        simp [metricChange]
      exact hno b c hb hc
    have hme : metricEntry "time" th.time br.Mean cr.Mean = [] := by
      rcases hb : br.Mean with _ | b <;> rcases hc : cr.Mean with _ | c <;>
        simp [metricEntry]
      exact hno b c hb hc
    refine ⟨by simp [hmc], by simp [hmc], ?_⟩
    rw [hme]
    rcases br.memory with _ | bm <;> rcases cr.memory with _ | cm <;>
      simp [metricEntry, lookupMetric] <;> split_ifs <;> simp [lookupMetric]
  · intro hno
    have hmc : metricChange br.memory cr.memory = none := by
      rcases hb : br.memory with _ | b <;> rcases hc : cr.memory with _ | c <;>
        simp [metricChange]
      exact hno b c hb hc
    have hme : metricEntry "memory" th.memory br.memory cr.memory = [] := by
      rcases hb : br.memory with _ | b <;> rcases hc : cr.memory with _ | c <;>
        simp [metricEntry]
      exact hno b c hb hc
    refine ⟨by simp [hmc], by simp [hmc], ?_⟩
    rw [hme]
    rcases br.Mean with _ | bv <;> rcases cr.Mean with _ | cv <;>
      simp [metricEntry, lookupMetric] <;> split_ifs <;> simp [lookupMetric]

/-- Witness for C7: estimates that carry only a memory point-estimate keep
the time fields untouched. -/
theorem C7_no_comparison_is_silent_witness :
    (compare_benchmarks defaultThresholds brOnlyMem brOnlyMem).time_change = 0 ∧
    (compare_benchmarks defaultThresholds brOnlyMem brOnlyMem).time_regression = false ∧
    lookupMetric "time"
      (compare_benchmarks defaultThresholds brOnlyMem brOnlyMem).details = none :=
  (C7_no_comparison_is_silent defaultThresholds brOnlyMem brOnlyMem).1
    (fun b c hb _ => by simp [brOnlyMem] at hb)

end CheckPerf

namespace CheckPerf

theorem regStep_eq (th : RegThresholds) (rs : List (String × Comparison)) (d : BenchDir) :
    regStep th rs d = rs ++ (regEntry th d).toList := by
  simp only [regStep, regEntry]
  split_ifs <;> simp

theorem foldl_regStep (th : RegThresholds) (l : List BenchDir) :
    ∀ acc, l.foldl (regStep th) acc = acc ++ l.filterMap (regEntry th) := by
  induction l with
  | nil => intro acc; simp
  | cons d l ih =>
      intro acc
      rw [List.foldl_cons, regStep_eq, ih, List.filterMap_cons]
      cases regEntry th d <;> simp

theorem check_regressions_closed (th : RegThresholds) (dir : CriterionDir) :
    check_regressions th dir =
      (dir.entries.filter (fun d => d.isDir && !(d.name == "base"))).filterMap
        (regEntry th) := by
  simp only [check_regressions]
  rw [foldl_regStep]
  simp

/-- Claim C4: every entry of the regression set names a scanned directory
entry other than the reserved `base` one, whose baseline and current loads
were both non-empty, and whose comparison raised at least one regression
flag; entries with missing data are skipped without error. -/
theorem C4_regression_set_sound (th : RegThresholds) (dir : CriterionDir) :
    ∀ p ∈ check_regressions th dir,
      p.1 ≠ "base" ∧
      ∃ d ∈ dir.entries, d.name = p.1 ∧ d.isDir = true ∧
        (load_benchmark_results d.baseline).isEmpty = false ∧
        (load_benchmark_results d.current).isEmpty = false ∧
        p.2 = compare_benchmarks th (load_benchmark_results d.baseline)
                (load_benchmark_results d.current) ∧
        (p.2.time_regression || p.2.memory_regression) = true := by
  intro p hp
  rw [check_regressions_closed] at hp
  obtain ⟨d, hd, hreg⟩ := List.mem_filterMap.mp hp
  obtain ⟨hdmem, hcond⟩ := List.mem_filter.mp hd
  simp only [Bool.and_eq_true, Bool.not_eq_true', beq_eq_false_iff_ne, ne_eq] at hcond
  obtain ⟨hdir, hnb⟩ := hcond
  simp only [regEntry] at hreg
  split_ifs at hreg with h1 h2 h3
  all_goals cases hreg
  refine ⟨hnb, d, hdmem, rfl, hdir, ?_, ?_, rfl, h3⟩
  · simpa using h1
  · simpa using h2

/-- Witness for C4: `dirFoo` produces the single regression entry for
`foo`, and it satisfies every conjunct. -/
theorem C4_regression_set_sound_witness :
    ("foo", cmpFoo).1 ≠ "base" ∧
    ∃ d ∈ dirFoo.entries, d.name = ("foo", cmpFoo).1 ∧ d.isDir = true ∧
      (load_benchmark_results d.baseline).isEmpty = false ∧
      (load_benchmark_results d.current).isEmpty = false ∧
      ("foo", cmpFoo).2 = compare_benchmarks defaultThresholds
        (load_benchmark_results d.baseline) (load_benchmark_results d.current) ∧
      (("foo", cmpFoo).2.time_regression || ("foo", cmpFoo).2.memory_regression) = true := by
  have hflag : cmpFoo.time_regression = true := by
    simp only [cmpFoo, compare_benchmarks_closed, brFoo, crFoo, metricChange]
    norm_num [defaultThresholds]
  have hflag2 : (compare_benchmarks defaultThresholds brFoo crFoo).time_regression = true :=
    hflag
  have hbase : (load_benchmark_results (some brFoo)).isEmpty = false := rfl
  have hcur : (load_benchmark_results (some crFoo)).isEmpty = false := rfl
  have hlb : load_benchmark_results (some brFoo) = brFoo := rfl
  have hlc : load_benchmark_results (some crFoo) = crFoo := rfl
  have hentry : regEntry defaultThresholds ⟨"foo", true, some crFoo, some brFoo⟩ =
      some ("foo", cmpFoo) := by
    simp [regEntry, hbase, hcur, hlb, hlc, hflag2, cmpFoo,
      show brFoo.isEmpty = false from rfl, show crFoo.isEmpty = false from rfl]
  have hmem : ("foo", cmpFoo) ∈ check_regressions defaultThresholds dirFoo := by
    rw [check_regressions_closed]
    simp [dirFoo, hentry]
  exact C4_regression_set_sound defaultThresholds dirFoo ("foo", cmpFoo) hmem

end CheckPerf
